import Mathlib

/-!
Verification of the uploads-routing edge worker (src/worker.js).

The worker is a Cloudflare-style request handler: it serves requests whose
path begins with "/uploads/" by rewriting them onto a configured delivery
base URL (jsDelivr by default), fetching the rewritten URL, retrying once
with a "wp-content" + original-path shape when the first fetch returns 404,
and relaying the winning upstream response with three CORS/cache headers
merged on.  Requests outside "/uploads/" get a 404 with body "Not Found".
A try/catch around both outbound fetches converts a thrown transport error
into a 500 response carrying the error message.

JavaScript strings are modelled as Lean `String`s, with the string
operations the worker uses (startsWith, substring/slice, endsWith,
anchored-replace) defined on the underlying character list so that they
match JavaScript semantics exactly.  Outbound fetches are modelled by an
oracle: the handler takes the outcome of each potential fetch
(`Except String Response`, error = thrown transport error carrying a
message) as an argument, and returns both its final response and the list
of outbound requests it issued, wrapped in `Except` whose error case
models an uncaught exception escaping the handler.
-/

/-- JavaScript `s.startsWith(p)`: the first `p.length` code units of `s`
equal `p`. -/
def jsStartsWith (s p : String) : Bool :=
  decide (s.data.take p.data.length = p.data)

/-- JavaScript `s.substring(n)` / the effect of removing the first `n`
characters. -/
def jsDrop (s : String) (n : Nat) : String :=
  ⟨s.data.drop n⟩

/-- JavaScript `s.endsWith(p)`: the last `p.length` code units of `s`
equal `p`. -/
def jsEndsWith (s p : String) : Bool :=
  decide (s.data.drop (s.data.length - p.data.length) = p.data)

/-- Configuration constant GITHUB_USERNAME from worker.js line 19. -/
def GITHUB_USERNAME : String := "crabvn"

/-- Configuration constant GITHUB_REPO from worker.js line 20. -/
def GITHUB_REPO : String := "uniquepetswiki-uploads"

/-- Configuration constant GITHUB_BRANCH from worker.js line 21. -/
def GITHUB_BRANCH : String := "main"

/-- Configuration constant HOSTING_METHOD from worker.js line 27. -/
def HOSTING_METHOD : String := "jsdelivr"

/-- The BASE_URLS lookup object from worker.js lines 30-34; `none` models a
missing key. -/
def BASE_URLS (key : String) : Option String :=
  if key = "raw" then
    some ("https://raw.githubusercontent.com/" ++ GITHUB_USERNAME ++ "/" ++
      GITHUB_REPO ++ "/" ++ GITHUB_BRANCH)
  else if key = "pages" then
    some ("https://" ++ GITHUB_USERNAME ++ ".github.io/" ++ GITHUB_REPO)
  else if key = "jsdelivr" then
    some ("https://cdn.jsdelivr.net/gh/" ++ GITHUB_USERNAME ++ "/" ++
      GITHUB_REPO ++ "@" ++ GITHUB_BRANCH)
  else
    none

/-- getBaseUrl from worker.js lines 39-41: `BASE_URLS[HOSTING_METHOD] ||
BASE_URLS.jsdelivr`. -/
def getBaseUrl : String :=
  (BASE_URLS HOSTING_METHOD).getD
    ("https://cdn.jsdelivr.net/gh/" ++ GITHUB_USERNAME ++ "/" ++
      GITHUB_REPO ++ "@" ++ GITHUB_BRANCH)

/-- getGitHubPath from worker.js lines 49-54:
`path.replace(/^\/uploads\//, '')` removes one leading literal
"/uploads/" occurrence (anchored, case-sensitive) and leaves any other
path untouched. -/
def getGitHubPath (path : String) : String :=
  if jsStartsWith path "/uploads/" then
    jsDrop path ("/uploads/" : String).data.length
  else
    path

/-- The URL-joining logic of worker.js lines 71-74 (also 95-98): strip one
leading slash from the relative part, then concatenate with exactly the
base's trailing slash or one inserted slash. -/
def joinTarget (baseUrl rel : String) : String :=
  let clean := if jsStartsWith rel "/" then jsDrop rel 1 else rel
  if jsEndsWith baseUrl "/" then baseUrl ++ clean else baseUrl ++ "/" ++ clean

/-- A parsed WHATWG URL as the worker uses it: the serialized
scheme+host+path part, and the serialized query (empty or starting with
"?"), mutable via the `.search` setter. -/
structure URLModel where
  locator : String
  search : String
deriving DecidableEq

/-- The `new URL(s)` constructor on the worker's URL strings: parsing
succeeds exactly when the string is an https URL with a nonempty host;
`none` models the constructor throwing. The worker builds URL strings with
no query part, so the parsed search is empty. -/
def parseURL (s : String) : Option URLModel :=
  if jsStartsWith s "https://" &&
     !jsStartsWith (jsDrop s 8) "/" &&
     !decide (jsDrop s 8 = "") then
    some ⟨s, ""⟩
  else
    none

/-- An upstream HTTP response as the worker observes it. -/
structure Response where
  status : Nat
  statusText : String
  headers : List (String × String)
  body : String
deriving DecidableEq

/-- The inbound request as the worker reads it: method, parsed URL path,
serialized query string, header entries, optional body. -/
structure RequestModel where
  method : String
  pathname : String
  search : String
  headers : List (String × String)
  body : Option String
deriving DecidableEq

/-- An outbound request the worker issues via `fetch(new Request(...))`. -/
structure OutboundRequest where
  urlLocator : String
  urlSearch : String
  method : String
  headers : List (String × String)
  body : Option String
deriving DecidableEq

/-- Upserting one key into a JavaScript object's ordered entry list:
overwrite in place when the key exists, append otherwise. -/
def setHeader : List (String × String) → String → String → List (String × String)
  | [], k, v => [(k, v)]
  | p :: rest, k, v =>
    if p.1 = k then (k, v) :: rest else p :: setHeader rest k v

/-- `Object.fromEntries` on a header entry list: later duplicate keys
overwrite earlier ones, first-insertion order kept. -/
def fromEntries (hs : List (String × String)) : List (String × String) :=
  hs.foldl (fun m p => setHeader m p.1 p.2) []

/-- Look up a header value by (exact) name. -/
def getHeader : List (String × String) → String → Option String
  | [], _ => none
  | p :: rest, k => if p.1 = k then some p.2 else getHeader rest k

/-- The spread-plus-overrides object of worker.js lines 115-120 and
129-134: the response's header entries with the three CORS/cache keys
upserted. -/
def withCors (hs : List (String × String)) : List (String × String) :=
  setHeader
    (setHeader
      (setHeader (fromEntries hs) "Access-Control-Allow-Origin" "*")
      "Access-Control-Allow-Methods" "GET, HEAD, OPTIONS")
    "Cache-Control" "public, max-age=31536000, immutable"

/-- The overridden User-Agent value of worker.js lines 83 and 106. -/
def uaValue : String := "Mozilla/5.0 (compatible; CloudflareWorker/1.0)"

/-- The forwarded header object of worker.js lines 81-84: inbound entries
with User-Agent upserted. -/
def fwdHeaders (req : RequestModel) : List (String × String) :=
  setHeader (fromEntries req.headers) "User-Agent" uaValue

/-- The primary outbound request of worker.js lines 79-86, as determined
by the inbound request. -/
def primarySent (req : RequestModel) : OutboundRequest :=
  ⟨joinTarget getBaseUrl (getGitHubPath req.pathname), req.search,
    req.method, fwdHeaders req, req.body⟩

/-- The fallback outbound request of worker.js lines 94-108 (no body is
forwarded on the retry). -/
def altSent (req : RequestModel) : OutboundRequest :=
  ⟨joinTarget getBaseUrl ("wp-content" ++ req.pathname), req.search,
    req.method, fwdHeaders req, none⟩

/-- The handler's observable outcome: the response returned to the caller
and the outbound requests issued, in order. -/
structure HandlerResult where
  resp : Response
  sent : List OutboundRequest
deriving DecidableEq

/-- The worker's fetch handler (worker.js lines 57-143).  `f1` and `f2`
are the oracle outcomes of the primary and fallback fetches
(`Except.error m` = the fetch threw a transport error with message `m`).
The result's `Except.error` case models an exception escaping the handler
uncaught; note that the try block of lines 88-142 encloses both fetches
and the fallback URL construction, while the primary `new URL` of line 75
sits outside it. -/
def handler (req : RequestModel) (f1 f2 : Except String Response) :
    Except String HandlerResult :=
  if !jsStartsWith req.pathname "/uploads/" then
    Except.ok ⟨⟨404, "", [], "Not Found"⟩, []⟩
  else
    let githubPath := getGitHubPath req.pathname
    let baseUrl := getBaseUrl
    let targetUrlString := joinTarget baseUrl githubPath
    match parseURL targetUrlString with
    | none => Except.error "TypeError: Invalid URL"
    | some tu =>
      let targetUrl : URLModel := { tu with search := req.search }
      let req1 : OutboundRequest :=
        ⟨targetUrl.locator, targetUrl.search, req.method, fwdHeaders req, req.body⟩
      match f1 with
      | Except.error e =>
        Except.ok ⟨⟨500, "", [], "Error fetching from GitHub: " ++ e⟩, [req1]⟩
      | Except.ok response =>
        if response.status = 404 then
          let altPath := "wp-content" ++ req.pathname
          let altUrlString := joinTarget baseUrl altPath
          match parseURL altUrlString with
          | none =>
            Except.ok ⟨⟨500, "", [],
              "Error fetching from GitHub: Invalid URL"⟩, [req1]⟩
          | some au =>
            let altUrl : URLModel := { au with search := req.search }
            let req2 : OutboundRequest :=
              ⟨altUrl.locator, altUrl.search, req.method, fwdHeaders req, none⟩
            match f2 with
            | Except.error e =>
              Except.ok ⟨⟨500, "", [],
                "Error fetching from GitHub: " ++ e⟩, [req1, req2]⟩
            | Except.ok altResponse =>
              if altResponse.status = 200 then
                Except.ok ⟨⟨altResponse.status, altResponse.statusText,
                  withCors altResponse.headers, altResponse.body⟩, [req1, req2]⟩
              else
                Except.ok ⟨⟨response.status, response.statusText,
                  withCors response.headers, response.body⟩, [req1, req2]⟩
        else
          Except.ok ⟨⟨response.status, response.statusText,
            withCors response.headers, response.body⟩, [req1]⟩

/-- Whether the handler returned a response (rather than letting an
exception escape). -/
def isHandled : Except String HandlerResult → Bool
  | Except.ok _ => true
  | Except.error _ => false

/-- How many outbound fetches the handler issued. -/
def fetchCount : Except String HandlerResult → Nat
  | Except.ok r => r.sent.length
  | Except.error _ => 0

/-- The primary target URL as a pure function of the inbound request's
path and query alone (worker.js lines 66-76). -/
def buildPrimaryTarget (req : RequestModel) : URLModel :=
  ⟨joinTarget getBaseUrl (getGitHubPath req.pathname), req.search⟩

theorem jsStartsWith_append (p r : String) : jsStartsWith (p ++ r) p = true := by
  simp [jsStartsWith, String.data_append, List.take_left]

theorem jsDrop_append (p r : String) : jsDrop (p ++ r) p.data.length = r := by
  apply String.ext
  simp [jsDrop, String.data_append, List.drop_left]

theorem getBaseUrl_eq :
    getBaseUrl = "https://cdn.jsdelivr.net/gh/crabvn/uniquepetswiki-uploads@main" := by
  decide

theorem joinTarget_base (rel : String) :
    joinTarget getBaseUrl rel =
      "https://cdn.jsdelivr.net/gh/crabvn/uniquepetswiki-uploads@main/" ++
        (if jsStartsWith rel "/" then jsDrop rel 1 else rel) := by
  rw [getBaseUrl_eq]
  unfold joinTarget
  have h : jsEndsWith "https://cdn.jsdelivr.net/gh/crabvn/uniquepetswiki-uploads@main" "/"
      = false := by decide
  simp only [h, Bool.false_eq_true, if_false]
  have hB : ("https://cdn.jsdelivr.net/gh/crabvn/uniquepetswiki-uploads@main" ++ "/" : String)
      = "https://cdn.jsdelivr.net/gh/crabvn/uniquepetswiki-uploads@main/" := by decide
  rw [hB]

theorem take_one_cdn (td : List Char) :
    (("cdn.jsdelivr.net/gh/crabvn/uniquepetswiki-uploads@main/" : String).data ++ td).take 1
      = ['c'] := rfl

theorem parseURL_cdn (t : String) :
    parseURL ("https://cdn.jsdelivr.net/gh/crabvn/uniquepetswiki-uploads@main/" ++ t)
      = some ⟨"https://cdn.jsdelivr.net/gh/crabvn/uniquepetswiki-uploads@main/" ++ t, ""⟩ := by
  have hL : ("https://cdn.jsdelivr.net/gh/crabvn/uniquepetswiki-uploads@main/" : String)
      = "https://" ++ "cdn.jsdelivr.net/gh/crabvn/uniquepetswiki-uploads@main/" := by decide
  rw [hL, String.append_assoc]
  have h1 : jsStartsWith
      ("https://" ++ ("cdn.jsdelivr.net/gh/crabvn/uniquepetswiki-uploads@main/" ++ t))
      "https://" = true := jsStartsWith_append _ _
  have h2 : jsDrop
      ("https://" ++ ("cdn.jsdelivr.net/gh/crabvn/uniquepetswiki-uploads@main/" ++ t)) 8
      = "cdn.jsdelivr.net/gh/crabvn/uniquepetswiki-uploads@main/" ++ t :=
    jsDrop_append "https://" _
  have h3 : jsStartsWith
      ("cdn.jsdelivr.net/gh/crabvn/uniquepetswiki-uploads@main/" ++ t) "/" = false := by
    unfold jsStartsWith
    have ht : (("cdn.jsdelivr.net/gh/crabvn/uniquepetswiki-uploads@main/" ++ t) : String).data.take
        (("/" : String).data.length) = ['c'] := by
      rw [String.data_append]; exact take_one_cdn t.data
    rw [ht]; decide
  have h4 : ("cdn.jsdelivr.net/gh/crabvn/uniquepetswiki-uploads@main/" ++ t) ≠ "" := by
    intro hEq
    have hd := congrArg String.data hEq
    rw [String.data_append] at hd
    exact absurd (List.append_eq_nil.mp hd).1 (by decide)
  have h4' : decide (("cdn.jsdelivr.net/gh/crabvn/uniquepetswiki-uploads@main/" ++ t) = "")
      = false := decide_eq_false h4
  unfold parseURL
  rw [h2, h1, h3, h4']
  rfl

theorem parseURL_join (rel : String) :
    parseURL (joinTarget getBaseUrl rel) = some ⟨joinTarget getBaseUrl rel, ""⟩ := by
  rw [joinTarget_base]
  exact parseURL_cdn _

theorem getHeader_setHeader_self (hs : List (String × String)) (k v : String) :
    getHeader (setHeader hs k v) k = some v := by
  induction hs with
  | nil => simp [setHeader, getHeader]
  | cons p rest ih =>
    by_cases hp : p.1 = k
    · simp [setHeader, hp, getHeader]
    · simp [setHeader, hp, getHeader, ih]

theorem getHeader_setHeader_ne (hs : List (String × String)) (k v k' : String)
    (h : k' ≠ k) : getHeader (setHeader hs k v) k' = getHeader hs k' := by
  have h' : ¬k = k' := fun hh => h hh.symm
  induction hs with
  | nil => simp [setHeader, getHeader, h']
  | cons p rest ih =>
    by_cases hp : p.1 = k
    · simp [setHeader, hp, getHeader, h']
    · by_cases hp' : p.1 = k'
      · simp [setHeader, hp, getHeader, hp', h, h']
      · simp [setHeader, hp, getHeader, hp', ih]

theorem withCors_origin (hs : List (String × String)) :
    getHeader (withCors hs) "Access-Control-Allow-Origin" = some "*" := by
  unfold withCors
  rw [getHeader_setHeader_ne _ _ _ _ (by decide), getHeader_setHeader_ne _ _ _ _ (by decide)]
  exact getHeader_setHeader_self _ _ _

theorem withCors_methods (hs : List (String × String)) :
    getHeader (withCors hs) "Access-Control-Allow-Methods" = some "GET, HEAD, OPTIONS" := by
  unfold withCors
  rw [getHeader_setHeader_ne _ _ _ _ (by decide)]
  exact getHeader_setHeader_self _ _ _

theorem withCors_cache (hs : List (String × String)) :
    getHeader (withCors hs) "Cache-Control" = some "public, max-age=31536000, immutable" :=
  getHeader_setHeader_self _ _ _

theorem withCors_other (hs : List (String × String)) (k : String)
    (hk1 : k ≠ "Access-Control-Allow-Origin")
    (hk2 : k ≠ "Access-Control-Allow-Methods")
    (hk3 : k ≠ "Cache-Control") :
    getHeader (withCors hs) k = getHeader (fromEntries hs) k := by
  unfold withCors
  rw [getHeader_setHeader_ne _ _ _ _ hk3, getHeader_setHeader_ne _ _ _ _ hk2,
    getHeader_setHeader_ne _ _ _ _ hk1]

theorem handler_miss (req : RequestModel) (f1 f2 : Except String Response)
    (h : jsStartsWith req.pathname "/uploads/" = false) :
    handler req f1 f2 = Except.ok ⟨⟨404, "", [], "Not Found"⟩, []⟩ := by
  unfold handler
  simp [h]

theorem handler_perror (req : RequestModel) (e : String) (f2 : Except String Response)
    (h1 : jsStartsWith req.pathname "/uploads/" = true) :
    handler req (Except.error e) f2
      = Except.ok ⟨⟨500, "", [], "Error fetching from GitHub: " ++ e⟩, [primarySent req]⟩ := by
  unfold handler
  simp [h1, parseURL_join, primarySent]

theorem handler_hit (req : RequestModel) (resp : Response) (f2 : Except String Response)
    (h1 : jsStartsWith req.pathname "/uploads/" = true) (h2 : resp.status ≠ 404) :
    handler req (Except.ok resp) f2
      = Except.ok ⟨⟨resp.status, resp.statusText, withCors resp.headers, resp.body⟩,
          [primarySent req]⟩ := by
  unfold handler
  simp [h1, parseURL_join, h2, primarySent]

theorem handler_ferror (req : RequestModel) (resp : Response) (e : String)
    (h1 : jsStartsWith req.pathname "/uploads/" = true) (h2 : resp.status = 404) :
    handler req (Except.ok resp) (Except.error e)
      = Except.ok ⟨⟨500, "", [], "Error fetching from GitHub: " ++ e⟩,
          [primarySent req, altSent req]⟩ := by
  unfold handler
  simp [h1, parseURL_join, h2, primarySent, altSent]

theorem handler_alt200 (req : RequestModel) (resp alt : Response)
    (h1 : jsStartsWith req.pathname "/uploads/" = true) (h2 : resp.status = 404)
    (h3 : alt.status = 200) :
    handler req (Except.ok resp) (Except.ok alt)
      = Except.ok ⟨⟨200, alt.statusText, withCors alt.headers, alt.body⟩,
          [primarySent req, altSent req]⟩ := by
  unfold handler
  simp [h1, parseURL_join, h2, h3, primarySent, altSent]

theorem handler_altother (req : RequestModel) (resp alt : Response)
    (h1 : jsStartsWith req.pathname "/uploads/" = true) (h2 : resp.status = 404)
    (h3 : alt.status ≠ 200) :
    handler req (Except.ok resp) (Except.ok alt)
      = Except.ok ⟨⟨resp.status, resp.statusText, withCors resp.headers, resp.body⟩,
          [primarySent req, altSent req]⟩ := by
  unfold handler
  simp [h1, parseURL_join, h2, h3, primarySent, altSent]

theorem handler_total_shape (req : RequestModel) (f1 f2 : Except String Response) :
    isHandled (handler req f1 f2) = true ∧ fetchCount (handler req f1 f2) ≤ 2 := by
  cases hb : jsStartsWith req.pathname "/uploads/" with
  | false =>
    rw [handler_miss req f1 f2 hb]
    exact ⟨rfl, by simp [fetchCount]⟩
  | true =>
    cases f1 with
    | error e =>
      rw [handler_perror req e f2 hb]
      exact ⟨rfl, by simp [fetchCount]⟩
    | ok resp =>
      by_cases h2 : resp.status = 404
      · cases f2 with
        | error e =>
          rw [handler_ferror req resp e hb h2]
          exact ⟨rfl, by simp [fetchCount]⟩
        | ok alt =>
          by_cases h3 : alt.status = 200
          · rw [handler_alt200 req resp alt hb h2 h3]
            exact ⟨rfl, by simp [fetchCount]⟩
          · rw [handler_altother req resp alt hb h2 h3]
            exact ⟨rfl, by simp [fetchCount]⟩
      · rw [handler_hit req resp f2 hb h2]
        exact ⟨rfl, by simp [fetchCount]⟩

/-- C1 counterexample: the claim says the off-root 404 has an empty
body, but on a concrete request outside "/uploads/" the worker returns the
body "Not Found", which is not empty (worker.js line 62). -/
theorem c1_counterexample :
    handler ⟨"POST", "/wp-admin/x.png", "?v=1", [("Accept", "*/*")], some "payload"⟩
        (Except.ok ⟨200, "OK", [], "b"⟩) (Except.ok ⟨200, "OK", [], "b"⟩)
      = Except.ok ⟨⟨404, "", [], "Not Found"⟩, []⟩
    ∧ ("Not Found" : String) ≠ "" :=
  ⟨rfl, by decide⟩

/-- C1 (amended): for every request whose path does not start with
"/uploads/", the handler returns status 404 with body "Not Found" (not
empty), sets no headers of its own, and performs no outbound fetch,
regardless of method, headers, body, or fetch outcomes. -/
theorem c1_not_under_root (req : RequestModel) (f1 f2 : Except String Response)
    (h : jsStartsWith req.pathname "/uploads/" = false) :
    handler req f1 f2 = Except.ok ⟨⟨404, "", [], "Not Found"⟩, []⟩ :=
  handler_miss req f1 f2 h

/-- Witness for C1 at the concrete path "/favicon.ico". -/
theorem c1_witness :
    handler ⟨"GET", "/favicon.ico", "", [], none⟩ (Except.ok ⟨200, "OK", [], "x"⟩)
        (Except.ok ⟨200, "OK", [], "x"⟩)
      = Except.ok ⟨⟨404, "", [], "Not Found"⟩, []⟩ :=
  c1_not_under_root _ _ _ (by decide)

/-- C2 counterexample: the claim says a transport error of the fallback
fetch is not caught; concretely, with the primary fetch returning 404 and
the fallback fetch throwing "connection refused", the handler returns an
ordinary 500 response carrying the message — the try block of worker.js
lines 88-142 encloses the fallback fetch, so the error is caught, not
propagated. -/
theorem c2_counterexample :
    handler ⟨"GET", "/uploads/2020/01/img.jpg", "", [], none⟩
        (Except.ok ⟨404, "Not Found", [], ""⟩) (Except.error "connection refused")
      = Except.ok ⟨⟨500, "", [], "Error fetching from GitHub: connection refused"⟩,
          [⟨"https://cdn.jsdelivr.net/gh/crabvn/uniquepetswiki-uploads@main/2020/01/img.jpg",
            "", "GET", [("User-Agent", uaValue)], none⟩,
           ⟨"https://cdn.jsdelivr.net/gh/crabvn/uniquepetswiki-uploads@main/wp-content/uploads/2020/01/img.jpg",
            "", "GET", [("User-Agent", uaValue)], none⟩]⟩
    ∧ isHandled (handler ⟨"GET", "/uploads/2020/01/img.jpg", "", [], none⟩
        (Except.ok ⟨404, "Not Found", [], ""⟩) (Except.error "connection refused")) = true :=
  ⟨rfl, rfl⟩

/-- C2 (amended): a transport-level error raised by the fallback fetch IS
caught by the handler (the same try/catch that guards the primary fetch)
and converted into a 500 response whose body carries the error message;
it does not propagate as an unhandled failure. -/
theorem c2_fallback_error_caught (req : RequestModel) (resp : Response) (e : String)
    (h1 : jsStartsWith req.pathname "/uploads/" = true) (h2 : resp.status = 404) :
    handler req (Except.ok resp) (Except.error e)
      = Except.ok ⟨⟨500, "", [], "Error fetching from GitHub: " ++ e⟩,
          [primarySent req, altSent req]⟩
    ∧ isHandled (handler req (Except.ok resp) (Except.error e)) = true := by
  have h := handler_ferror req resp e h1 h2
  exact ⟨h, by rw [h]; rfl⟩

/-- Witness for C2 at a concrete request and error message. -/
theorem c2_witness :
    handler ⟨"GET", "/uploads/a.jpg", "?q=1", [], none⟩
        (Except.ok ⟨404, "Not Found", [], ""⟩) (Except.error "dns failure")
      = Except.ok ⟨⟨500, "", [], "Error fetching from GitHub: " ++ "dns failure"⟩,
          [primarySent ⟨"GET", "/uploads/a.jpg", "?q=1", [], none⟩,
           altSent ⟨"GET", "/uploads/a.jpg", "?q=1", [], none⟩]⟩
    ∧ isHandled (handler ⟨"GET", "/uploads/a.jpg", "?q=1", [], none⟩
        (Except.ok ⟨404, "Not Found", [], ""⟩) (Except.error "dns failure")) = true :=
  c2_fallback_error_caught _ _ _ (by decide) (by decide)

/-- C3: under the "/uploads/" root, when the primary fetch returns exactly
404 and the fallback fetch returns exactly 200, the final response has
status 200 with the fallback's status text and body, and its headers are
the fallback response's headers with the three CORS/cache overrides
upserted: the three overrides are present with their fixed values and
every other header name keeps its value from the fallback response. -/
theorem c3_fallback_200 (req : RequestModel) (resp alt : Response) (k : String)
    (h1 : jsStartsWith req.pathname "/uploads/" = true)
    (h2 : resp.status = 404) (h3 : alt.status = 200)
    (hk1 : k ≠ "Access-Control-Allow-Origin")
    (hk2 : k ≠ "Access-Control-Allow-Methods")
    (hk3 : k ≠ "Cache-Control") :
    handler req (Except.ok resp) (Except.ok alt)
      = Except.ok ⟨⟨200, alt.statusText, withCors alt.headers, alt.body⟩,
          [primarySent req, altSent req]⟩
    ∧ getHeader (withCors alt.headers) "Access-Control-Allow-Origin" = some "*"
    ∧ getHeader (withCors alt.headers) "Access-Control-Allow-Methods"
        = some "GET, HEAD, OPTIONS"
    ∧ getHeader (withCors alt.headers) "Cache-Control"
        = some "public, max-age=31536000, immutable"
    ∧ getHeader (withCors alt.headers) k = getHeader (fromEntries alt.headers) k :=
  ⟨handler_alt200 req resp alt h1 h2 h3, withCors_origin _, withCors_methods _,
    withCors_cache _, withCors_other _ _ hk1 hk2 hk3⟩

/-- Witness for C3 at a concrete request, 404 primary response, and 200
fallback response, with "Content-Type" as the untouched header name. -/
theorem c3_witness :
    handler ⟨"GET", "/uploads/2020/01/img.jpg", "?w=300", [("Accept", "image/avif")], none⟩
        (Except.ok ⟨404, "Not Found", [("X-Served-By", "gh")], "missing"⟩)
        (Except.ok ⟨200, "OK", [("Content-Type", "image/jpeg")], "JPEGDATA"⟩)
      = Except.ok ⟨⟨200, "OK", withCors [("Content-Type", "image/jpeg")], "JPEGDATA"⟩,
          [primarySent ⟨"GET", "/uploads/2020/01/img.jpg", "?w=300",
            [("Accept", "image/avif")], none⟩,
           altSent ⟨"GET", "/uploads/2020/01/img.jpg", "?w=300",
            [("Accept", "image/avif")], none⟩]⟩
    ∧ getHeader (withCors [("Content-Type", "image/jpeg")]) "Access-Control-Allow-Origin"
        = some "*"
    ∧ getHeader (withCors [("Content-Type", "image/jpeg")]) "Access-Control-Allow-Methods"
        = some "GET, HEAD, OPTIONS"
    ∧ getHeader (withCors [("Content-Type", "image/jpeg")]) "Cache-Control"
        = some "public, max-age=31536000, immutable"
    ∧ getHeader (withCors [("Content-Type", "image/jpeg")]) "Content-Type"
        = getHeader (fromEntries [("Content-Type", "image/jpeg")]) "Content-Type" :=
  c3_fallback_200 _ _ _ _ (by decide) (by decide) (by decide) (by decide) (by decide)
    (by decide)

/-- C4: under the "/uploads/" root, when the primary fetch returns exactly
404 and the fallback returns any status other than 200, the final response
has status 404 with the primary response's status text and body, and its
headers are the primary response's headers with the three CORS/cache
overrides upserted; the fallback response is discarded entirely. -/
theorem c4_fallback_non200 (req : RequestModel) (resp alt : Response) (k : String)
    (h1 : jsStartsWith req.pathname "/uploads/" = true)
    (h2 : resp.status = 404) (h3 : alt.status ≠ 200)
    (hk1 : k ≠ "Access-Control-Allow-Origin")
    (hk2 : k ≠ "Access-Control-Allow-Methods")
    (hk3 : k ≠ "Cache-Control") :
    handler req (Except.ok resp) (Except.ok alt)
      = Except.ok ⟨⟨404, resp.statusText, withCors resp.headers, resp.body⟩,
          [primarySent req, altSent req]⟩
    ∧ getHeader (withCors resp.headers) "Access-Control-Allow-Origin" = some "*"
    ∧ getHeader (withCors resp.headers) "Access-Control-Allow-Methods"
        = some "GET, HEAD, OPTIONS"
    ∧ getHeader (withCors resp.headers) "Cache-Control"
        = some "public, max-age=31536000, immutable"
    ∧ getHeader (withCors resp.headers) k = getHeader (fromEntries resp.headers) k := by
  have h := handler_altother req resp alt h1 h2 h3
  rw [h2] at h
  exact ⟨h, withCors_origin _, withCors_methods _, withCors_cache _,
    withCors_other _ _ hk1 hk2 hk3⟩

/-- Witness for C4 at a concrete request with both fetches returning 404. -/
theorem c4_witness :
    handler ⟨"GET", "/uploads/gone.png", "", [], none⟩
        (Except.ok ⟨404, "Not Found", [("X-Cache", "MISS")], "nope"⟩)
        (Except.ok ⟨404, "Not Found", [], "also nope"⟩)
      = Except.ok ⟨⟨404, "Not Found", withCors [("X-Cache", "MISS")], "nope"⟩,
          [primarySent ⟨"GET", "/uploads/gone.png", "", [], none⟩,
           altSent ⟨"GET", "/uploads/gone.png", "", [], none⟩]⟩
    ∧ getHeader (withCors [("X-Cache", "MISS")]) "Access-Control-Allow-Origin" = some "*"
    ∧ getHeader (withCors [("X-Cache", "MISS")]) "Access-Control-Allow-Methods"
        = some "GET, HEAD, OPTIONS"
    ∧ getHeader (withCors [("X-Cache", "MISS")]) "Cache-Control"
        = some "public, max-age=31536000, immutable"
    ∧ getHeader (withCors [("X-Cache", "MISS")]) "X-Cache"
        = getHeader (fromEntries [("X-Cache", "MISS")]) "X-Cache" :=
  c4_fallback_non200 _ _ _ _ (by decide) (by decide) (by decide) (by decide) (by decide)
    (by decide)

/-- C5: under the "/uploads/" root, when the primary fetch throws a
transport error with message `e`, the handler returns a 500 response whose
body is "Error fetching from GitHub: " followed by `e` — in particular the
body contains the literal message text, as the second conjunct makes
explicit (dropping the 28-character fixed part leaves exactly `e`). -/
theorem c5_primary_error_500 (req : RequestModel) (e : String)
    (f2 : Except String Response)
    (h1 : jsStartsWith req.pathname "/uploads/" = true) :
    handler req (Except.error e) f2
      = Except.ok ⟨⟨500, "", [], "Error fetching from GitHub: " ++ e⟩, [primarySent req]⟩
    ∧ jsDrop ("Error fetching from GitHub: " ++ e) 28 = e :=
  ⟨handler_perror req e f2 h1, jsDrop_append "Error fetching from GitHub: " e⟩

/-- Witness for C5 at a concrete request and error message. -/
theorem c5_witness :
    handler ⟨"GET", "/uploads/b.png", "", [], none⟩
        (Except.error "TLS handshake failed") (Except.ok ⟨200, "OK", [], ""⟩)
      = Except.ok ⟨⟨500, "", [], "Error fetching from GitHub: " ++ "TLS handshake failed"⟩,
          [primarySent ⟨"GET", "/uploads/b.png", "", [], none⟩]⟩
    ∧ jsDrop ("Error fetching from GitHub: " ++ "TLS handshake failed") 28
        = "TLS handshake failed" :=
  c5_primary_error_500 _ _ _ (by decide)

/-- C6: the URL join produces exactly one separating slash on the claim's
inputs: base "https://cdn.example/gh/user/repo@main" without and with a
trailing slash, and relative path "2020/01/img.jpg" without and with a
leading slash, all yield the same target string with no double slash at
the join point. -/
theorem c6_join_single_slash :
    joinTarget "https://cdn.example/gh/user/repo@main" "2020/01/img.jpg"
      = "https://cdn.example/gh/user/repo@main/2020/01/img.jpg"
    ∧ joinTarget "https://cdn.example/gh/user/repo@main/" "2020/01/img.jpg"
      = "https://cdn.example/gh/user/repo@main/2020/01/img.jpg"
    ∧ joinTarget "https://cdn.example/gh/user/repo@main" "/2020/01/img.jpg"
      = "https://cdn.example/gh/user/repo@main/2020/01/img.jpg"
    ∧ joinTarget "https://cdn.example/gh/user/repo@main/" "/2020/01/img.jpg"
      = "https://cdn.example/gh/user/repo@main/2020/01/img.jpg" := by
  refine ⟨?_, ?_, ?_, ?_⟩ <;> decide

/-- C7: stripping the configured root is exact and literal: for every
`rest` (including the empty string, strings with percent-encoded
characters, ".." segments, or a leading "/"), the derived path of
"/uploads/" ++ rest is exactly `rest`, with no normalization; and the
match is case-sensitive, leaving differently-cased paths untouched. -/
theorem c7_strip_exact :
    (∀ rest : String, getGitHubPath ("/uploads/" ++ rest) = rest)
    ∧ getGitHubPath "/UPLOADS/2020/01/img.jpg" = "/UPLOADS/2020/01/img.jpg"
    ∧ getGitHubPath "/Uploads/a.png" = "/Uploads/a.png"
    ∧ getGitHubPath "/uploads/" = ""
    ∧ getGitHubPath "/uploads/../secret" = "../secret"
    ∧ getGitHubPath "/uploads//abs.png" = "/abs.png"
    ∧ getGitHubPath "/uploads/img%20a.jpg" = "img%20a.jpg" := by
  refine ⟨?_, by decide, by decide, by decide, by decide, by decide, by decide⟩
  intro rest
  unfold getGitHubPath
  rw [jsStartsWith_append, if_pos rfl]
  exact jsDrop_append "/uploads/" rest

/-- Witness for C7 at a concrete percent-encoded remainder. -/
theorem c7_witness :
    getGitHubPath ("/uploads/" ++ "2020/01/img%20a.jpg") = "2020/01/img%20a.jpg" :=
  c7_strip_exact.1 "2020/01/img%20a.jpg"

/-- C8: whenever the handler returns a response, every outbound request it
issued (primary and fallback alike) carries exactly the inbound request's
query string. -/
theorem c8_search_forwarded (req : RequestModel) (f1 f2 : Except String Response)
    (r : HandlerResult) (s : OutboundRequest)
    (hr : handler req f1 f2 = Except.ok r) (hs : s ∈ r.sent) :
    s.urlSearch = req.search := by
  cases hb : jsStartsWith req.pathname "/uploads/" with
  | false =>
    rw [handler_miss req f1 f2 hb] at hr
    injection hr with hr'
    subst hr'
    simp at hs
  | true =>
    cases f1 with
    | error e =>
      rw [handler_perror req e f2 hb] at hr
      injection hr with hr'
      subst hr'
      simp at hs
      subst hs
      rfl
    | ok resp =>
      by_cases h2 : resp.status = 404
      · cases f2 with
        | error e =>
          rw [handler_ferror req resp e hb h2] at hr
          injection hr with hr'
          subst hr'
          simp at hs
          rcases hs with rfl | rfl <;> rfl
        | ok alt =>
          by_cases h3 : alt.status = 200
          · rw [handler_alt200 req resp alt hb h2 h3] at hr
            injection hr with hr'
            subst hr'
            simp at hs
            rcases hs with rfl | rfl <;> rfl
          · rw [handler_altother req resp alt hb h2 h3] at hr
            injection hr with hr'
            subst hr'
            simp at hs
            rcases hs with rfl | rfl <;> rfl
      · rw [handler_hit req resp f2 hb h2] at hr
        injection hr with hr'
        subst hr'
        simp at hs
        subst hs
        rfl

/-- Witness for C8: on a concrete request with query "?x=1", the single
outbound request the handler issued carries "?x=1". -/
theorem c8_witness :
    OutboundRequest.urlSearch
        ⟨"https://cdn.jsdelivr.net/gh/crabvn/uniquepetswiki-uploads@main/a.png", "?x=1",
          "GET", [("User-Agent", uaValue)], none⟩
      = RequestModel.search ⟨"GET", "/uploads/a.png", "?x=1", [], none⟩ :=
  c8_search_forwarded ⟨"GET", "/uploads/a.png", "?x=1", [], none⟩
    (Except.ok ⟨200, "OK", [], "body"⟩) (Except.ok ⟨200, "OK", [], "b"⟩)
    ⟨⟨200, "OK",
        [("Access-Control-Allow-Origin", "*"),
         ("Access-Control-Allow-Methods", "GET, HEAD, OPTIONS"),
         ("Cache-Control", "public, max-age=31536000, immutable")], "body"⟩,
      [⟨"https://cdn.jsdelivr.net/gh/crabvn/uniquepetswiki-uploads@main/a.png", "?x=1",
        "GET", [("User-Agent", uaValue)], none⟩]⟩
    ⟨"https://cdn.jsdelivr.net/gh/crabvn/uniquepetswiki-uploads@main/a.png", "?x=1",
      "GET", [("User-Agent", uaValue)], none⟩
    (by rfl) (by simp)

/-- C9: the primary target URL is a pure function of the configured base
URL, the inbound path, and the inbound query string: two requests agreeing
on path and query (but differing arbitrarily in method, headers, or body)
yield identical target URLs, and the URL of the primary outbound request
the handler issues is exactly this function's value. -/
theorem c9_target_pure (r1 r2 : RequestModel) (hp : r1.pathname = r2.pathname)
    (hq : r1.search = r2.search) :
    buildPrimaryTarget r1 = buildPrimaryTarget r2
    ∧ (primarySent r1).urlLocator = (buildPrimaryTarget r1).locator
    ∧ (primarySent r1).urlSearch = (buildPrimaryTarget r1).search := by
  refine ⟨?_, rfl, rfl⟩
  unfold buildPrimaryTarget
  rw [hp, hq]

/-- Witness for C9: two concrete requests sharing path and query but with
different methods, headers, and bodies build the same target URL. -/
theorem c9_witness :
    buildPrimaryTarget ⟨"GET", "/uploads/c.gif", "?r=2", [("Accept", "*/*")], none⟩
      = buildPrimaryTarget ⟨"HEAD", "/uploads/c.gif", "?r=2", [], some "x"⟩
    ∧ (primarySent ⟨"GET", "/uploads/c.gif", "?r=2", [("Accept", "*/*")], none⟩).urlLocator
      = (buildPrimaryTarget ⟨"GET", "/uploads/c.gif", "?r=2",
          [("Accept", "*/*")], none⟩).locator
    ∧ (primarySent ⟨"GET", "/uploads/c.gif", "?r=2", [("Accept", "*/*")], none⟩).urlSearch
      = (buildPrimaryTarget ⟨"GET", "/uploads/c.gif", "?r=2",
          [("Accept", "*/*")], none⟩).search :=
  c9_target_pure _ _ (by decide) (by decide)

/-- C10: the handler is total at its interface: for every inbound request
and every outcome of the (at most two) outbound fetches, no exception
escapes the handler, exactly one response is produced, at most two
outbound fetches are issued, and both the primary and the alternate URL
constructions parse successfully (the configured base URL is a fixed
well-formed https URL, and any appended suffix stays parseable). -/
theorem c10_total (req : RequestModel) (f1 f2 : Except String Response) :
    isHandled (handler req f1 f2) = true
    ∧ fetchCount (handler req f1 f2) ≤ 2
    ∧ (parseURL (joinTarget getBaseUrl (getGitHubPath req.pathname))).isSome = true
    ∧ (parseURL (joinTarget getBaseUrl ("wp-content" ++ req.pathname))).isSome = true :=
  ⟨(handler_total_shape req f1 f2).1, (handler_total_shape req f1 f2).2,
    by rw [parseURL_join]; rfl, by rw [parseURL_join]; rfl⟩

/-- Witness for C10 at a concrete request with both fetches returning 404. -/
theorem c10_witness :
    isHandled (handler ⟨"GET", "/uploads/z.webp", "", [], none⟩
        (Except.ok ⟨404, "NF", [], ""⟩) (Except.ok ⟨404, "NF", [], ""⟩)) = true
    ∧ fetchCount (handler ⟨"GET", "/uploads/z.webp", "", [], none⟩
        (Except.ok ⟨404, "NF", [], ""⟩) (Except.ok ⟨404, "NF", [], ""⟩)) ≤ 2
    ∧ (parseURL (joinTarget getBaseUrl (getGitHubPath "/uploads/z.webp"))).isSome = true
    ∧ (parseURL (joinTarget getBaseUrl ("wp-content" ++ "/uploads/z.webp"))).isSome
        = true :=
  c10_total ⟨"GET", "/uploads/z.webp", "", [], none⟩
    (Except.ok ⟨404, "NF", [], ""⟩) (Except.ok ⟨404, "NF", [], ""⟩)
